import Mathlib

/-!
Verification of the resilient interaction layer of the pw-mcp-cursor
Playwright test suite.

The development shallowly embeds the helpers named by the claims:

* `CartPage.getVisibleItemCount`, `CartPage.getStableVisibleItemCount`,
  `CartPage.waitForCountToEqual`, `CartPage.waitForCartItemsExactCount`,
  `CartPage.assertCartItemsExactCount`, `CartPage.assertCartEmpty`,
  `CartPage.getCartItemsCount`, `CartPage.placeOrder`,
  `CartPage.findPaymentOrCheckoutPage` (src/unnamed/part_019),
* `findPaymentOrCheckoutPage` (src/unnamed/part_016),
* `clickFirstAvailable` (src/helpers/interactions.ts and src/unnamed/part_016),
* `dismissAnyModalIfVisible` (src/unnamed/part_014, src/unnamed/part_015,
  src/helpers/interactions.ts),
* `retry` (src/unnamed/part_017).

Modelling conventions:

* The browser is an oracle: each primitive driver call (`locator.count()`,
  `locator.click()`, `page.isClosed()`, `locator.isVisible()`, ...) draws its
  result from an environment record.  A primitive that may reject is drawn
  from `Except Unit _`; a `try`/`catch` in the TypeScript becomes a `match`
  on that value.
* The event loop is sequential and deterministic (the suite runs one
  browser-automation worker; see spec section 5).  `Date.now()` is a `Nat`
  clock that starts at 0 at the top of each helper and advances by exactly
  the argument of each `sleep`/delay; driver calls themselves take no model
  time.  Page state changes only at the sampling points the environment
  describes.
* `while (Date.now() - start < timeoutMs)` loops are written structurally
  recursive on a fuel argument.  Every iteration of every such loop sleeps
  at least 150ms (resp. 100ms for `clickFirstAvailable`), so a top-level
  fuel of `timeoutMs + 1` is strictly larger than the possible number of
  iterations and the fuel-exhausted branch is unreachable from the
  wrappers; the timeout-related theorems are proved for the wrappers with
  invariants that cover that branch anyway.
-/

/-! ## The checkout/payment URL pattern

`/\/(checkout|payment)\b/i` from `findPaymentOrCheckoutPage`.  JavaScript
`\b` after the final letter means the next character, if any, is not a word
character (`[A-Za-z0-9_]`); the `i` flag is modelled by lowercasing. -/

/-- Word character in the sense of the JavaScript regex class `\w`. -/
def isWordChar (c : Char) : Bool :=
  c.isAlpha || c.isDigit || c = '_'

/-- Does the text start with the pattern, followed by a JavaScript word
boundary (end of string or a non-word character)? -/
def matchHereWordEnd : List Char → List Char → Bool
  | rest, [] =>
    match rest with
    | [] => true
    | c :: _ => !(isWordChar c)
  | [], _ :: _ => false
  | c :: rest, p :: ps => c = p && matchHereWordEnd rest ps

/-- Does `/checkout\b/` or `/payment\b/` (lowercased input) match at some
position of the character list? -/
def matchesCheckoutPaymentChars : List Char → Bool
  | [] => false
  | c :: rest =>
    matchHereWordEnd (c :: rest) "/checkout".toList
      || matchHereWordEnd (c :: rest) "/payment".toList
      || matchesCheckoutPaymentChars rest

/-- The test `/\/(checkout|payment)\b/i.test(url)`. -/
def testCheckoutPayment (url : String) : Bool :=
  matchesCheckoutPaymentChars url.toLower.toList

/-! ## Cart item counting (CartPage, src/unnamed/part_019)

`getVisibleItemCount` reads two locator counts; `getStableVisibleItemCount`
samples it until two consecutive reads agree; `waitForCountToEqual` polls
the sampler until `requiredStableHits` consecutive samples equal the
expected count or the timeout elapses. -/

/-- Oracle for one `CartPage` count-reading session.  `visCount k` and
`rowCount k` are the results of `this.visibleProductRows.count()` and
`this.productRows.count()` during the `k`-th call of
`getVisibleItemCount`; `closed` is `this.page.isClosed()` (constant during
the session in the deterministic model). -/
structure CartReadEnv where
  closed : Bool
  visCount : Nat → Except Unit Nat
  rowCount : Nat → Except Unit Nat

/-- CartPage.getVisibleItemCount (part_019 lines 179-188): 0 when the page
is closed, else the visible-row count if positive, else the row count;
0 when either count rejects (the `catch` branch). `k` is the call index. -/
def getVisibleItemCount (e : CartReadEnv) (k : Nat) : Nat :=
  if e.closed then 0
  else
    match e.visCount k with
    | .error _ => 0
    | .ok v =>
      if 0 < v then v
      else
        match e.rowCount k with
        | .error _ => 0
        | .ok r => r

/-- Loop body of CartPage.getStableVisibleItemCount (part_019 lines
191-207).  Arguments mirror the source state: remaining `samples`, read
index `k`, `last` (initially `-1`), `stableReads`, and the ms slept so
far.  Returns (value, next read index, total ms slept). -/
def stableLoop (e : CartReadEnv) (delayMs : Nat) :
    Nat → Nat → Int → Nat → Nat → Nat × Nat × Nat
  | 0, k, last, _, slept => (if last < 0 then 0 else last.toNat, k, slept)
  | samples + 1, k, last, stableReads, slept =>
    let current := getVisibleItemCount e k
    if (current : Int) = last then
      if 2 ≤ stableReads + 1 then (current, k + 1, slept)
      else stableLoop e delayMs samples (k + 1) last (stableReads + 1) (slept + delayMs)
    else
      if 2 ≤ (1 : Nat) then (current, k + 1, slept)
      else stableLoop e delayMs samples (k + 1) (current : Int) 1 (slept + delayMs)

/-- CartPage.getStableVisibleItemCount: 0 immediately when the page is
closed, else run the sampling loop from read index `k` with
`last = -1`, `stableReads = 0`. -/
def getStableVisibleItemCount (e : CartReadEnv) (samples delayMs k : Nat) :
    Nat × Nat × Nat :=
  if e.closed then (0, k, 0)
  else stableLoop e delayMs samples k (-1) 0 0

/-- Loop body of CartPage.waitForCountToEqual (part_019 lines 156-176).
One iteration: sample `getStableVisibleItemCount()` (defaults 3 samples,
75ms delay), update `stableHits`, return `true` once
`requiredStableHits` is reached, else `sleep(150)` and poll again while
the clock is below `timeoutMs`.  `periodicRefreshCartIfDue` and
`ensureCartPageReady` only renavigate the page; their effect on later
reads is absorbed into the environment and they cost no model time.
Nothing inside the `try` can reject in the model (every rejecting
primitive is already caught inside `getVisibleItemCount`), so the
`catch` branch of the source is dead here.  Returns
(result, clock at return, next read index). -/
def waitLoop (e : CartReadEnv) (expected timeoutMs requiredStableHits : Nat) :
    Nat → Nat → Nat → Nat → Bool × Nat × Nat
  | 0, now, k, _ => (false, now, k)
  | fuel + 1, now, k, stableHits =>
    if now < timeoutMs then
      let s := getStableVisibleItemCount e 3 75 k
      if s.1 = expected then
        if requiredStableHits ≤ stableHits + 1 then (true, now + s.2.2, s.2.1)
        else waitLoop e expected timeoutMs requiredStableHits fuel
          (now + s.2.2 + 150) s.2.1 (stableHits + 1)
      else waitLoop e expected timeoutMs requiredStableHits fuel
        (now + s.2.2 + 150) s.2.1 0
    else (false, now, k)

/-- CartPage.waitForCountToEqual: start the polling loop at clock 0, read
index 0, no stable hits.  Fuel `timeoutMs + 1` strictly exceeds the
iteration count since every iteration advances the clock by at least
150ms. -/
def waitForCountToEqual (e : CartReadEnv) (expected timeoutMs requiredStableHits : Nat) :
    Bool × Nat × Nat :=
  waitLoop e expected timeoutMs requiredStableHits (timeoutMs + 1) 0 0 0

/-! ## clickFirstAvailable (src/helpers/interactions.ts lines 3-21 and
src/unnamed/part_016 lines 34-52)

Both variants loop over the candidate list until the deadline: skip a
candidate whose `count()` rejects (interactions.ts catches it with the
surrounding `try`, part_016 maps it to 0) or returns 0; otherwise click
it and return it, a rejected click falling through to the next candidate
(interactions.ts via the surrounding `catch`, part_016 via
`.then(() => true).catch(() => false)`).  After a full miss the loop
sleeps 100ms and retries while `Date.now() < deadline`. -/

/-- Oracle for a clickFirstAvailable run: `cnt iter c` / `clk iter c` are
the results of `cand.count()` / `cand.first().click({ force })` for
candidate index `c` during outer iteration `iter`. -/
structure ClickEnv where
  cnt : Nat → Nat → Except Unit Nat
  clk : Nat → Nat → Except Unit Unit

/-- A click the helper actually performed on the page, successful or
rejected. -/
inductive ClickEv where
  | clickOk (iter cand : Nat)
  | clickFail (iter cand : Nat)
deriving DecidableEq, Repr

/-- One pass of the inner `for (const cand of candidates)` loop.  Returns
the clicked candidate (if any) and the trace of performed clicks. -/
def tryCandidates (e : ClickEnv) (iter : Nat) : List Nat → Option Nat × List ClickEv
  | [] => (none, [])
  | c :: rest =>
    match e.cnt iter c with
    | .error _ => tryCandidates e iter rest
    | .ok 0 => tryCandidates e iter rest
    | .ok (_ + 1) =>
      match e.clk iter c with
      | .ok _ => (some c, [ClickEv.clickOk iter c])
      | .error _ =>
        let r := tryCandidates e iter rest
        (r.1, ClickEv.clickFail iter c :: r.2)

/-- Outer `while (Date.now() < deadline)` loop of clickFirstAvailable.
Returns (clicked candidate, clock at return, click trace). -/
def clickLoop (e : ClickEnv) (n timeoutMs : Nat) :
    Nat → Nat → Nat → Option Nat × Nat × List ClickEv
  | 0, now, _ => (none, now, [])
  | fuel + 1, now, iter =>
    if now < timeoutMs then
      let a := tryCandidates e iter (List.range n)
      match a.1 with
      | some c => (some c, now, a.2)
      | none =>
        let r := clickLoop e n timeoutMs fuel (now + 100) (iter + 1)
        (r.1, r.2.1, a.2 ++ r.2.2)
    else (none, now, [])

/-- clickFirstAvailable over `n` candidate locators with deadline
`timeoutMs` (default 3000 in the source): clock starts at 0, fuel
`timeoutMs + 1` strictly exceeds the iteration count since every
iteration sleeps 100ms. -/
def clickFirstAvailable (e : ClickEnv) (n timeoutMs : Nat) :
    Option Nat × Nat × List ClickEv :=
  clickLoop e n timeoutMs (timeoutMs + 1) 0 0

/-! ## findPaymentOrCheckoutPage (src/unnamed/part_016 lines 3-22,
identical private method in part_019 lines 127-150) -/

/-- One browser tab as the recovery scan sees it: closed flag, URL, and
the four control-locator counts the heuristics query (each
`.catch(() => 0)`).  `id` models object identity for the
`alt !== this.page` comparison in `placeOrder`. -/
structure Pg where
  id : Nat
  closed : Bool
  url : String
  payBtnCount : Except Unit Nat
  nameOnCardCount : Except Unit Nat
  placeOrderLinkCount : Except Unit Nat
  placeOrderBtnCount : Except Unit Nat

/-- Value of a locator count whose rejection is mapped to 0 by
`.catch(() => 0)`. -/
def countOr0 : Except Unit Nat → Nat
  | .error _ => 0
  | .ok n => n

/-- `hasPayment` heuristic: a pay-button or a name-on-card field. -/
def hasPaymentControls (p : Pg) : Bool :=
  0 < countOr0 p.payBtnCount || 0 < countOr0 p.nameOnCardCount

/-- `hasPlaceOrder` heuristic: a place-order link or button. -/
def hasPlaceOrderControls (p : Pg) : Bool :=
  0 < countOr0 p.placeOrderLinkCount || 0 < countOr0 p.placeOrderBtnCount

/-- findPaymentOrCheckoutPage: filter the context's pages to the
non-closed ones, scan them from the last (most recently opened) page
backwards for a checkout/payment URL, then scan again for payment or
place-order controls, else null.  The backwards `for` loops are the
first match on the reversed list. -/
def findPaymentOrCheckoutPage (ps : List Pg) : Option Pg :=
  let live := ps.filter (fun p => !p.closed)
  match live.reverse.find? (fun p => testCheckoutPayment p.url) with
  | some p => some p
  | none =>
    live.reverse.find? (fun p => hasPaymentControls p || hasPlaceOrderControls p)

/-- Reading of the spec sentence for the same scan ("scan all open tabs
... for one matching an expected URL pattern or containing expected
controls, preferring most-recently-opened"): the last non-closed page
whose URL matches, else the last non-closed page with the expected
controls, else null.  Stated with `List.getLast?` over filters; compared
against the implementation in the C5 theorem. -/
def findPaymentOrCheckoutPageSpec (ps : List Pg) : Option Pg :=
  match (ps.filter (fun p => !p.closed && testCheckoutPayment p.url)).getLast? with
  | some p => some p
  | none =>
    (ps.filter (fun p =>
      !p.closed && (hasPaymentControls p || hasPlaceOrderControls p))).getLast?

/-! ## placeOrder (CartPage, src/unnamed/part_019 lines 461-545) -/

/-- Errors thrown by `placeOrder`: descriptive `Error(msg)` values the
method constructs itself, or an opaque driver rejection bubbling out of
the final fill / pay-click / success assertion. -/
inductive POErr where
  | msg (s : String)
  | prim
deriving DecidableEq, Repr

/-- Oracle for one `placeOrder` activation.  `ctxPages` is the snapshot
`this.page.context().pages()` used by the recovery scans; `selfClosed0`,
`selfClosed1`, `selfClosed2` are `this.page.isClosed()` at the entry
check, after the place-order trigger click, and at the terminal-URL
read; `triggerCount`/`triggerClick` are the place-order CTA count and
click (both fully caught, so they never affect control flow);
`formVisible` is the raced 8s visibility wait on the three payment-form
locators (each `catch` maps to `false`); `url` is `this.page.url()`;
`selfId` identifies `this.page` for the `alt !== this.page` test;
`fillsOk`, `payClickOk`, `orderPlacedOk` collapse the five final
`fill` calls, the pay click and the `Order Placed!` assertion to their
success outcomes (no claim inspects them further). -/
structure PlaceOrderEnv where
  ctxPages : List Pg
  selfClosed0 : Bool
  triggerCount : Except Unit Nat
  triggerClick : Except Unit Unit
  selfClosed1 : Bool
  formVisible : Bool
  selfClosed2 : Bool
  url : String
  selfId : Nat
  fillsOk : Bool
  payClickOk : Bool
  orderPlacedOk : Bool

/-- Fill-and-pay phase, reached only when the payment form is visible:
the first rejecting step bubbles as an opaque error, otherwise the
method returns normally. -/
def placeOrderFillPhase (e : PlaceOrderEnv) : Except POErr Unit :=
  if !e.fillsOk then .error .prim
  else if !e.payClickOk then .error .prim
  else if !e.orderPlacedOk then .error .prim
  else .ok ()

/-- The page URL interpolated into the terminal error:
`this.page.isClosed() ? '<closed>' : this.page.url()`. -/
def placeOrderUrlText (e : PlaceOrderEnv) : String :=
  if e.selfClosed2 then "<closed>" else e.url

/-- placeOrder re-invoked on a recovered page (`_recovered = true`): no
further recovery is attempted on any path. -/
def placeOrderRecovered (e : PlaceOrderEnv) : Except POErr Unit :=
  if e.selfClosed0 then .error (.msg "Cannot place order: page is already closed")
  else if e.formVisible then placeOrderFillPhase e
  else .error (.msg ("Payment form not visible; cannot place order. URL=" ++ placeOrderUrlText e))

/-- placeOrder as called by the suite (`_recovered = false`).  `e` is the
oracle of this activation and `eRec` the oracle of the single recovered
re-activation, should one happen.  Mirrors part_019: entry closed-page
recovery, place-order trigger click (fully caught), mid-flight
closed-page recovery, the raced form-visibility wait, the last-chance
scan (recursing only when the found page is a different live page), and
the terminal descriptive errors. -/
def placeOrder (e eRec : PlaceOrderEnv) : Except POErr Unit :=
  if e.selfClosed0 then
    match findPaymentOrCheckoutPage e.ctxPages with
    | some _ => placeOrderRecovered eRec
    | none => .error (.msg "Cannot place order: page is already closed")
  else if e.selfClosed1 then
    match findPaymentOrCheckoutPage e.ctxPages with
    | some _ => placeOrderRecovered eRec
    | none =>
      .error (.msg "Payment form not visible; original page closed and no replacement page found")
  else if e.formVisible then placeOrderFillPhase e
  else
    match findPaymentOrCheckoutPage e.ctxPages with
    | some alt =>
      if alt.id ≠ e.selfId then placeOrderRecovered eRec
      else .error (.msg ("Payment form not visible; cannot place order. URL=" ++ placeOrderUrlText e))
    | none =>
      .error (.msg ("Payment form not visible; cannot place order. URL=" ++ placeOrderUrlText e))

/-! ## Modal dismissal (src/unnamed/part_014 lines 9-39, src/unnamed/part_015
lines 4-27, src/helpers/interactions.ts lines 48-72) -/

/-- Page mutations a dismissAnyModalIfVisible variant can perform.  The
visibility reads and the final hidden-state waits mutate nothing and are
not traced. -/
inductive MAct where
  | clickDismiss
  | pressEscape
deriving DecidableEq, Repr

/-- Oracle for one dismissAnyModalIfVisible call: the two visibility
reads (their rejections are already mapped to `false` by
`.catch(() => false)` in the source), the dismiss-button count, the
outcome of clicking the dismiss button, and the outcome of pressing
Escape. -/
structure ModalEnv where
  anyModalVisible : Bool
  cartModalVisible : Bool
  dismissBtnCount : Except Unit Nat
  dismissClick : Except Unit Unit
  escapePress : Except Unit Unit

/-- dismissAnyModalIfVisible of src/unnamed/part_014: return immediately
when neither modal reads as visible, else click the dismiss button when
its count (rejections mapped to 0) is positive, else press Escape; all
outcomes caught.  Result: trace of performed mutations. -/
def dismissModalPart14 (s : ModalEnv) : List MAct :=
  if !s.cartModalVisible && !s.anyModalVisible then []
  else
    match countOr0 s.dismissBtnCount with
    | 0 =>
      match s.escapePress with
      | .ok _ => [MAct.pressEscape]
      | .error _ => []
    | _ + 1 =>
      match s.dismissClick with
      | .ok _ => [MAct.clickDismiss]
      | .error _ => []

/-- dismissAnyModalIfVisible of src/unnamed/part_015: same early return;
then, inside one `try`, click when `dismissButton.count()` is positive
(a rejecting count aborts the `try` without pressing Escape), else
press Escape. -/
def dismissModalPart15 (s : ModalEnv) : List MAct :=
  if !(s.anyModalVisible || s.cartModalVisible) then []
  else
    match s.dismissBtnCount with
    | .error _ => []
    | .ok 0 =>
      match s.escapePress with
      | .ok _ => [MAct.pressEscape]
      | .error _ => []
    | .ok (_ + 1) =>
      match s.dismissClick with
      | .ok _ => [MAct.clickDismiss]
      | .error _ => []

/-- dismissAnyModalIfVisible of src/helpers/interactions.ts: no
visibility check at all.  It attempts the dismiss-button click with a
2s timeout (`clicked` is its success flag) and presses Escape whenever
the click did not succeed; the final hidden-wait is caught and mutates
nothing. -/
def dismissModalInteractions (s : ModalEnv) : List MAct :=
  match s.dismissClick with
  | .ok _ => [MAct.clickDismiss]
  | .error _ =>
    match s.escapePress with
    | .ok _ => [MAct.pressEscape]
    | .error _ => []

/-! ## retry (src/unnamed/part_017 lines 12-23) -/

/-- Loop of `retry`: `fn i` is the outcome of the `i`-th invocation of
the retried thunk, `remaining` the attempts left, `lastErr` the saved
error (`none` models the initial JavaScript `undefined`).  Returns the
overall outcome (`.error none` = `throw undefined`) paired with the
number of invocations performed.  The inter-attempt sleep affects no
observable value and is omitted. -/
def retryGo (fn : Nat → Except ε α) : Nat → Nat → Option ε → Except (Option ε) α × Nat
  | 0, i, lastErr => (.error lastErr, i)
  | remaining + 1, i, _ =>
    match fn i with
    | .ok v => (.ok v, i + 1)
    | .error e => retryGo fn remaining (i + 1) (some e)

/-- retry(fn, attempts): run the attempt loop from invocation 0 with no
saved error.  A non-positive JavaScript `attempts` runs the loop zero
times, which the `Nat` argument 0 models. -/
def retry (fn : Nat → Except ε α) (attempts : Nat) : Except (Option ε) α × Nat :=
  retryGo fn attempts 0 none

/-! ## Cart count assertions and getCartItemsCount (part_019) -/

/-- `names.join(', ')` as used in the timeout error messages. -/
def joinComma : List String → String
  | [] => ""
  | [x] => x
  | x :: y :: rest => x ++ ", " ++ joinComma (y :: rest)

/-- Oracle for the cart-page assertion helpers: the count-read oracle,
the product names `getVisibleProductNames()` collects (its cell-reading
loop is pure data gathering), and the per-iteration visibility of the
empty-cart message inside `assertCartEmpty`. -/
structure CartPageEnv where
  read : CartReadEnv
  names : List String
  emptyMsgVisible : Nat → Bool

/-- CartPage.waitForCartItemsExactCount (lines 408-415): poll
`waitForCountToEqual(expected, timeoutMs, 3)`; on success return, else
re-sample the count, collect the names and throw the descriptive
timeout error. -/
def waitForCartItemsExactCount (e : CartPageEnv) (expected timeoutMs : Nat) :
    Except String Unit :=
  let w := waitForCountToEqual e.read expected timeoutMs 3
  if w.1 then .ok ()
  else
    let currentCount := (getStableVisibleItemCount e.read 3 75 w.2.2).1
    .error ("Timed out waiting for cart to have " ++ toString expected
      ++ " items. Got " ++ toString currentCount ++ ". Items: " ++ joinComma e.names)

/-- The last observed count interpolated into the timeout error of
`waitForCartItemsExactCount`: the stable sample taken right after the
poll gave up, continuing the same read stream. -/
def lastObservedCount (e : CartPageEnv) (expected timeoutMs : Nat) : Nat :=
  (getStableVisibleItemCount e.read 3 75 (waitForCountToEqual e.read expected timeoutMs 3).2.2).1

/-- Loop of CartPage.assertCartEmpty (lines 358-373): while the clock is
below 15000, sample the stable count and the empty-message visibility;
return when the message is visible or the count is 0, else sleep 150ms.
`j` indexes the visibility reads.  Returns `none` on success or
`some (clock, read index)` on timeout. -/
def assertEmptyLoop (e : CartPageEnv) : Nat → Nat → Nat → Nat → Option (Nat × Nat)
  | 0, now, k, _ => some (now, k)
  | fuel + 1, now, k, j =>
    if now < 15000 then
      let s := getStableVisibleItemCount e.read 3 75 k
      if e.emptyMsgVisible j || s.1 = 0 then none
      else assertEmptyLoop e fuel (now + s.2.2 + 150) s.2.1 (j + 1)
    else some (now, k)

/-- CartPage.assertCartEmpty: run the loop; on timeout re-sample the
count as `remaining` and throw the descriptive error. -/
def assertCartEmpty (e : CartPageEnv) : Except String Unit :=
  match assertEmptyLoop e 15001 0 0 0 with
  | none => .ok ()
  | some t =>
    let remaining := (getStableVisibleItemCount e.read 3 75 t.2).1
    .error ("Expected empty cart but found " ++ toString remaining ++ " item(s).")

/-- CartPage.assertCartItemsExactCount (lines 376-388): `expected = 0`
delegates to `assertCartEmpty`; otherwise the body is the
`waitForCartItemsExactCount` logic with a fixed 15000ms timeout. -/
def assertCartItemsExactCount (e : CartPageEnv) (expected : Nat) : Except String Unit :=
  if expected = 0 then assertCartEmpty e
  else waitForCartItemsExactCount e expected 15000

/-- Oracle for one `getCartItemsCount` call (part_019 lines 390-405):
`closed0` is the entry `isClosed` check, `count1` the first
`visibleProductRows.count()`, `closed1` the `isClosed` check inside the
catch, `count2` the retried count.  `ensureCartPageReady` is navigation
whose every rejecting step is caught or guarded in the deterministic
model, so it contributes nothing observable here. -/
structure CartCountEnv where
  closed0 : Bool
  count1 : Except Unit Nat
  closed1 : Bool
  count2 : Except Unit Nat

/-- CartPage.getCartItemsCount with its `try`/`catch` structure made
explicit: `.ok` results are returned counts, and every rejection is
caught into `.ok 0`, so the overall computation never ends in
`.error`. -/
def getCartItemsCount (e : CartCountEnv) : Except Unit Nat :=
  if e.closed0 then .ok 0
  else
    match e.count1 with
    | .ok n => .ok n
    | .error _ =>
      if e.closed1 then .ok 0
      else
        match e.count2 with
        | .ok n => .ok n
        | .error _ => .ok 0

/-! ## String containment -/

/-- `sub` occurs as a contiguous substring of `m` (stated on the
underlying character lists). -/
def strContains (m sub : String) : Prop :=
  sub.data <:+: m.data

instance (m sub : String) : Decidable (strContains m sub) := by
  unfold strContains
  exact List.decidableInfix _ _

/-! ## Concrete sample environments

Closed instantiations used by the witness and counterexample theorems. -/

/-- A live cart whose visible-row count always reads 5. -/
def envConstFive : CartReadEnv :=
  { closed := false, visCount := fun _ => .ok 5, rowCount := fun _ => .ok 0 }

/-- A live cart whose `k`-th visible-row count reads `k + 1`: no two
consecutive reads ever agree. -/
def envDistinctReads : CartReadEnv :=
  { closed := false, visCount := fun k => .ok (k + 1), rowCount := fun _ => .ok 0 }

/-- A live cart whose visible-row count always reads 2. -/
def envConstTwo : CartReadEnv :=
  { closed := false, visCount := fun _ => .ok 2, rowCount := fun _ => .ok 0 }

/-- Two click candidates both present; candidate 0's click rejects and
candidate 1's click succeeds. -/
def envClickSecond : ClickEnv :=
  { cnt := fun _ _ => .ok 1
    clk := fun _ c => if c = 0 then .error () else .ok () }

/-- Click candidates whose `count()` always rejects: nothing is ever
clickable. -/
def envClickNever : ClickEnv :=
  { cnt := fun _ _ => .error (), clk := fun _ _ => .ok () }

/-- A placeOrder activation whose page is closed at entry while the
browsing context has no page at all. -/
def envPOClosedNoPages : PlaceOrderEnv :=
  { ctxPages := [], selfClosed0 := true, triggerCount := .ok 0
    triggerClick := .ok (), selfClosed1 := false, formVisible := false
    selfClosed2 := true, url := "", selfId := 0, fillsOk := true
    payClickOk := true, orderPlacedOk := true }

/-- A placeOrder activation on a live page whose payment form never
becomes visible and whose context has no other page; the page URL reads
"https://site.test/cart". -/
def envPOFormless : PlaceOrderEnv :=
  { ctxPages := [], selfClosed0 := false, triggerCount := .ok 0
    triggerClick := .ok (), selfClosed1 := false, formVisible := false
    selfClosed2 := false, url := "https://site.test/cart", selfId := 0
    fillsOk := true, payClickOk := true, orderPlacedOk := true }

/-- A cart page stuck at 2 visible items (one product name), never
showing the empty-cart message. -/
def envCartStuckAtTwo : CartPageEnv :=
  { read := envConstTwo, names := ["Blue Top"], emptyMsgVisible := fun _ => false }

/-- A page with no visible modal: both visibility reads are false, the
scoped dismiss-button click cannot succeed (the button sits inside
`#cartModal, .modal:visible` and is not actionable), its count resolves
to 0, and pressing Escape would succeed. -/
def envNoModal : ModalEnv :=
  { anyModalVisible := false, cartModalVisible := false
    dismissBtnCount := .ok 0, dismissClick := .error ()
    escapePress := .ok () }

/-- A getCartItemsCount call on a live page whose both counts reject. -/
def envCountBothFail : CartCountEnv :=
  { closed0 := false, count1 := .error (), closed1 := false, count2 := .error () }

/-- A thunk for `retry` that rejects with error `i` on its first two
invocations and succeeds with 7 from the third on. -/
def fnThirdTry : Nat → Except Nat Nat :=
  fun i => if i < 2 then .error i else .ok 7

/-- A getCartItemsCount call on an already-closed page. -/
def envCountClosed : CartCountEnv :=
  { closed0 := true, count1 := .ok 4, closed1 := false, count2 := .ok 4 }

/-! ## Helper lemmas about the retry loop -/

theorem retryGo_count_le {ε α : Type} (fn : Nat → Except ε α) :
    ∀ (r i : Nat) (le : Option ε), (retryGo fn r i le).2 ≤ i + r := by
  intro r
  induction r with
  | zero => intro i le; simp [retryGo]
  | succ r ih =>
    intro i le
    simp only [retryGo]
    cases hfi : fn i with
    | ok v =>
      show i + 1 ≤ i + (r + 1)
      omega
    | error e =>
      show (retryGo fn r (i + 1) (some e)).2 ≤ i + (r + 1)
      have h := ih (i + 1) (some e)
      omega

theorem retryGo_first_ok {ε α : Type} (fn : Nat → Except ε α) :
    ∀ (j r i : Nat) (le : Option ε) (v : α), j < r → fn (i + j) = .ok v →
      (∀ d, d < j → ∃ er, fn (i + d) = .error er) →
      retryGo fn r i le = (.ok v, i + j + 1) := by
  intro j
  induction j with
  | zero =>
    intro r i le v hr hok _
    obtain ⟨q, rfl⟩ : ∃ q, r = q + 1 := ⟨r - 1, by omega⟩
    rw [show i + 0 = i by omega] at hok
    simp [retryGo, hok]
  | succ j ih =>
    intro r i le v hr hok hfail
    obtain ⟨q, rfl⟩ : ∃ q, r = q + 1 := ⟨r - 1, by omega⟩
    obtain ⟨e0, he0⟩ := hfail 0 (by omega)
    rw [show i + 0 = i by omega] at he0
    have hok' : fn (i + 1 + j) = .ok v := by
      rw [show i + 1 + j = i + (j + 1) by omega]; exact hok
    have hfail' : ∀ d, d < j → ∃ er, fn (i + 1 + d) = .error er := by
      intro d hd
      obtain ⟨er, her⟩ := hfail (d + 1) (by omega)
      exact ⟨er, by rw [show i + 1 + d = i + (d + 1) by omega]; exact her⟩
    have step : retryGo fn (q + 1) i le = retryGo fn q (i + 1) (some e0) := by
      simp only [retryGo, he0]
    rw [step, ih q (i + 1) (some e0) v (by omega) hok' hfail',
      show i + 1 + j + 1 = i + (j + 1) + 1 by omega]

theorem retryGo_all_fail {ε α : Type} (fn : Nat → Except ε α) :
    ∀ (r i : Nat) (le : Option ε), 1 ≤ r →
      (∀ d, d < r → ∃ er, fn (i + d) = .error er) →
      ∃ eL, fn (i + r - 1) = .error eL ∧
        retryGo fn r i le = (.error (some eL), i + r) := by
  intro r
  induction r with
  | zero => intro i le h; omega
  | succ r ih =>
    intro i le _ hfail
    obtain ⟨e0, he0⟩ := hfail 0 (by omega)
    rw [show i + 0 = i by omega] at he0
    cases r with
    | zero =>
      refine ⟨e0, by simpa using he0, ?_⟩
      simp [retryGo, he0]
    | succ q =>
      have hfail' : ∀ d, d < q + 1 → ∃ er, fn (i + 1 + d) = .error er := by
        intro d hd
        obtain ⟨er, her⟩ := hfail (d + 1) (by omega)
        exact ⟨er, by rw [show i + 1 + d = i + (d + 1) by omega]; exact her⟩
      obtain ⟨eL, heL, hrun⟩ := ih (i + 1) (some e0) (by omega) hfail'
      refine ⟨eL, ?_, ?_⟩
      · rw [show i + (q + 1 + 1) - 1 = i + 1 + (q + 1) - 1 by omega]; exact heL
      · have step : retryGo fn (q + 1 + 1) i le = retryGo fn (q + 1) (i + 1) (some e0) := by
          simp only [retryGo, he0]
        rw [step, hrun, show i + 1 + (q + 1) = i + (q + 1 + 1) by omega]

/-! ## Claim theorems -/

/-- C10: `retry(fn, attempts)` invokes `fn` at most `attempts` times;
it returns the result of the first invocation that does not throw,
invoking `fn` exactly that often and never again; when every invocation
throws it rethrows exactly the error of the final attempt after exactly
`attempts` invocations; and with zero (in JavaScript: non-positive)
attempts it invokes `fn` not at all and throws the initial `undefined`
value. -/
theorem retry_c10 :
    (∀ (ε α : Type) (fn : Nat → Except ε α) (attempts : Nat),
      (retry fn attempts).2 ≤ attempts) ∧
    (∀ (ε α : Type) (fn : Nat → Except ε α) (attempts j : Nat) (v : α),
      j < attempts → fn j = .ok v → (∀ d, d < j → ∃ er, fn d = .error er) →
      retry fn attempts = (.ok v, j + 1)) ∧
    (∀ (ε α : Type) (fn : Nat → Except ε α) (attempts : Nat),
      1 ≤ attempts → (∀ d, d < attempts → ∃ er, fn d = .error er) →
      ∃ eL, fn (attempts - 1) = .error eL ∧
        retry fn attempts = (.error (some eL), attempts)) ∧
    (∀ (ε α : Type) (fn : Nat → Except ε α),
      retry fn 0 = (.error none, 0)) := by
  refine ⟨?_, ?_, ?_, ?_⟩
  · intro ε α fn attempts
    have := retryGo_count_le fn attempts 0 none
    simpa [retry] using this
  · intro ε α fn attempts j v hj hok hfail
    have := retryGo_first_ok fn j attempts 0 none v hj (by simpa using hok)
      (by intro d hd; simpa using hfail d hd)
    simpa [retry] using this
  · intro ε α fn attempts h1 hfail
    have := retryGo_all_fail fn attempts 0 none h1 (by intro d hd; simpa using hfail d hd)
    simpa [retry] using this
  · intro ε α fn
    simp [retry, retryGo]

/-- Witness for C10 at the concrete thunk `fnThirdTry` (two rejections,
then success). -/
theorem retry_c10_witness :
    (retry fnThirdTry 2).2 ≤ 2 ∧
    retry fnThirdTry 5 = (.ok 7, 3) ∧
    (∃ eL, fnThirdTry 1 = .error eL ∧ retry fnThirdTry 2 = (.error (some eL), 2)) ∧
    retry fnThirdTry 0 = (.error none, 0) := by
  refine ⟨retry_c10.1 Nat Nat fnThirdTry 2, ?_, ?_, retry_c10.2.2.2 Nat Nat fnThirdTry⟩
  · exact retry_c10.2.1 Nat Nat fnThirdTry 5 2 7 (by omega) rfl
      (by intro d hd; exact ⟨d, by simp [fnThirdTry, if_pos hd]⟩)
  · exact retry_c10.2.2.1 Nat Nat fnThirdTry 2 (by omega)
      (by intro d hd; exact ⟨d, by simp [fnThirdTry, if_pos hd]⟩)

/-- C9: `getCartItemsCount` never throws (its outcome is always a
returned count), returns 0 immediately when the page is already closed,
and returns 0 when both the first count and the retried count after
re-preparing the cart page reject. -/
theorem getCartItemsCount_c9 :
    (∀ e : CartCountEnv, ∃ n, getCartItemsCount e = .ok n) ∧
    (∀ e : CartCountEnv, e.closed0 = true → getCartItemsCount e = .ok 0) ∧
    (∀ e : CartCountEnv, e.count1 = .error () → e.count2 = .error () →
      getCartItemsCount e = .ok 0) := by
  refine ⟨?_, ?_, ?_⟩
  · intro e
    unfold getCartItemsCount
    by_cases h0 : e.closed0 <;> simp [h0]
    cases e.count1 with
    | ok n => exact ⟨n, rfl⟩
    | error u =>
      by_cases h1 : e.closed1 <;> simp [h1]
      cases e.count2 with
      | ok n => exact ⟨n, rfl⟩
      | error u => exact ⟨0, rfl⟩
  · intro e h0
    unfold getCartItemsCount
    simp [h0]
  · intro e h1 h2
    unfold getCartItemsCount
    by_cases h0 : e.closed0 <;> simp [h0, h1, h2]

/-- Witness for C9 at a closed page and at a live page whose both count
reads reject. -/
theorem getCartItemsCount_c9_witness :
    (∃ n, getCartItemsCount envCountBothFail = .ok n) ∧
    getCartItemsCount envCountClosed = .ok 0 ∧
    getCartItemsCount envCountBothFail = .ok 0 := by
  refine ⟨getCartItemsCount_c9.1 envCountBothFail, ?_, ?_⟩
  · exact getCartItemsCount_c9.2.1 envCountClosed rfl
  · exact getCartItemsCount_c9.2.2 envCountBothFail rfl rfl

/-- C7 counterexample: on a page state with no visible modal (the
visibility reads are false and the dismiss click, scoped to
`#cartModal, .modal:visible`, cannot succeed), the
src/helpers/interactions.ts variant of `dismissAnyModalIfVisible` is
not a no-op: it presses Escape, so the claim that no variant performs
an Escape keypress fails at this concrete state. -/
theorem dismissModal_c7_counterexample :
    envNoModal.anyModalVisible = false ∧ envNoModal.cartModalVisible = false ∧
    dismissModalInteractions envNoModal = [MAct.pressEscape] :=
  ⟨rfl, rfl, rfl⟩

/-- C7 (amended): on every page state with no visible modal, the
part_014 and part_015 variants of `dismissAnyModalIfVisible` perform no
page mutation at all and return normally; the interactions.ts variant
also returns normally and performs no dismiss click, but it falls back
to pressing Escape (exactly one keypress when the press succeeds). -/
theorem dismissModal_c7_amended :
    ∀ s : ModalEnv, s.anyModalVisible = false → s.cartModalVisible = false →
      s.dismissClick = .error () →
      dismissModalPart14 s = [] ∧ dismissModalPart15 s = [] ∧
      MAct.clickDismiss ∉ dismissModalInteractions s ∧
      (s.escapePress = .ok () → dismissModalInteractions s = [MAct.pressEscape]) := by
  intro s hAny hCart hClick
  refine ⟨?_, ?_, ?_, ?_⟩
  · unfold dismissModalPart14
    simp [hAny, hCart]
  · unfold dismissModalPart15
    simp [hAny, hCart]
  · unfold dismissModalInteractions
    rw [hClick]
    cases hEsc : s.escapePress <;> simp
  · intro hEsc
    unfold dismissModalInteractions
    rw [hClick, hEsc]

/-- Witness for the amended C7 at the concrete no-modal page state. -/
theorem dismissModal_c7_witness :
    dismissModalPart14 envNoModal = [] ∧ dismissModalPart15 envNoModal = [] ∧
    MAct.clickDismiss ∉ dismissModalInteractions envNoModal ∧
    dismissModalInteractions envNoModal = [MAct.pressEscape] := by
  have h := dismissModal_c7_amended envNoModal rfl rfl rfl
  exact ⟨h.1, h.2.1, h.2.2.1, h.2.2.2 rfl⟩

/-! ## List scanning lemmas for the recovery scan -/

theorem find?_eq_head?_filter {α : Type} (p : α → Bool) :
    ∀ l : List α, l.find? p = (l.filter p).head? := by
  intro l
  induction l with
  | nil => simp
  | cons a l ih =>
    by_cases h : p a
    · rw [List.find?_cons_of_pos l h, List.filter_cons_of_pos h, List.head?_cons]
    · rw [List.find?_cons_of_neg l h, List.filter_cons_of_neg h, ih]

theorem find?_reverse_eq_getLast?_filter {α : Type} (p : α → Bool) (l : List α) :
    l.reverse.find? p = (l.filter p).getLast? := by
  rw [find?_eq_head?_filter, List.filter_reverse, List.head?_reverse]

/-- C5: the recovery scan `findPaymentOrCheckoutPage` considers only
non-closed pages of the context, prefers the most recently opened one
(it scans the page list from the end), gives URL-pattern matches strict
precedence over the control heuristics, and returns null when neither
scan finds a page: it equals the literal spec reading
`findPaymentOrCheckoutPageSpec` (last non-closed URL match, else last
non-closed page with pay-button / name-on-card / place-order controls,
else none). -/
theorem findPayment_c5 :
    ∀ ps : List Pg, findPaymentOrCheckoutPage ps = findPaymentOrCheckoutPageSpec ps := by
  intro ps
  unfold findPaymentOrCheckoutPage findPaymentOrCheckoutPageSpec
  have h1 : (ps.filter (fun p => !p.closed)).reverse.find? (fun p => testCheckoutPayment p.url)
      = (ps.filter (fun p => !p.closed && testCheckoutPayment p.url)).getLast? := by
    rw [find?_reverse_eq_getLast?_filter, List.filter_filter,
      show (fun p => testCheckoutPayment p.url && !p.closed)
          = (fun p : Pg => !p.closed && testCheckoutPayment p.url) from
        funext fun p => Bool.and_comm _ _]
  have h2 : (ps.filter (fun p => !p.closed)).reverse.find?
        (fun p => hasPaymentControls p || hasPlaceOrderControls p)
      = (ps.filter (fun p =>
          !p.closed && (hasPaymentControls p || hasPlaceOrderControls p))).getLast? := by
    rw [find?_reverse_eq_getLast?_filter, List.filter_filter,
      show (fun p => (hasPaymentControls p || hasPlaceOrderControls p) && !p.closed)
          = (fun p : Pg => !p.closed && (hasPaymentControls p || hasPlaceOrderControls p)) from
        funext fun p => Bool.and_comm _ _]
  simp only [h1, h2]

theorem findPayment_none_of_no_match (ps : List Pg)
    (h : ∀ p ∈ ps, p.closed = false →
      testCheckoutPayment p.url = false ∧ hasPaymentControls p = false ∧
        hasPlaceOrderControls p = false) :
    findPaymentOrCheckoutPage ps = none := by
  unfold findPaymentOrCheckoutPage
  have hmem : ∀ p : Pg, p ∈ (ps.filter (fun p => !p.closed)).reverse →
      p ∈ ps ∧ p.closed = false := by
    intro p hp
    rw [List.mem_reverse, List.mem_filter] at hp
    exact ⟨hp.1, by simpa using hp.2⟩
  have hu : (ps.filter (fun p => !p.closed)).reverse.find?
      (fun p => testCheckoutPayment p.url) = none := by
    rw [List.find?_eq_none]
    intro p hp
    obtain ⟨hps, hcl⟩ := hmem p hp
    simp [(h p hps hcl).1]
  have hc : (ps.filter (fun p => !p.closed)).reverse.find?
      (fun p => hasPaymentControls p || hasPlaceOrderControls p) = none := by
    rw [List.find?_eq_none]
    intro p hp
    obtain ⟨hps, hcl⟩ := hmem p hp
    simp [(h p hps hcl).2.1, (h p hps hcl).2.2]
  simp only [hu, hc]

/-- C3: when no open, non-closed page of the context matches the
checkout/payment URL pattern and none carries the payment or
place-order controls, `findPaymentOrCheckoutPage` returns null, and a
`placeOrder` activation that needs recovery (its page is closed at
entry, or the payment form never becomes visible) ends in one of the
three descriptive errors — naming the closed page or the current URL —
instead of returning normally. -/
theorem placeOrder_c3 :
    ∀ e eRec : PlaceOrderEnv,
      (∀ p ∈ e.ctxPages, p.closed = false →
        testCheckoutPayment p.url = false ∧ hasPaymentControls p = false ∧
          hasPlaceOrderControls p = false) →
      findPaymentOrCheckoutPage e.ctxPages = none ∧
      (e.selfClosed0 = true ∨ e.formVisible = false →
        placeOrder e eRec = .error (.msg "Cannot place order: page is already closed") ∨
        placeOrder e eRec =
          .error (.msg "Payment form not visible; original page closed and no replacement page found") ∨
        placeOrder e eRec =
          .error (.msg ("Payment form not visible; cannot place order. URL="
            ++ placeOrderUrlText e))) := by
  intro e eRec h
  have hnone := findPayment_none_of_no_match e.ctxPages h
  refine ⟨hnone, ?_⟩
  intro hneed
  unfold placeOrder
  by_cases h0 : e.selfClosed0
  · rw [if_pos h0, hnone]
    exact Or.inl rfl
  · rw [if_neg h0]
    by_cases h1 : e.selfClosed1
    · rw [if_pos h1, hnone]
      exact Or.inr (Or.inl rfl)
    · rw [if_neg h1]
      have hF : e.formVisible = false := by
        rcases hneed with h' | h'
        · exact absurd h' h0
        · exact h'
      rw [hF]
      simp only [Bool.false_eq_true, if_false, hnone]
      exact Or.inr (Or.inr trivial)

/-- Witness for C3: a placeOrder activation whose page is closed at
entry while the browsing context holds no page at all. -/
theorem placeOrder_c3_witness :
    findPaymentOrCheckoutPage envPOClosedNoPages.ctxPages = none ∧
    (placeOrder envPOClosedNoPages envPOClosedNoPages =
        .error (.msg "Cannot place order: page is already closed") ∨
      placeOrder envPOClosedNoPages envPOClosedNoPages =
        .error (.msg "Payment form not visible; original page closed and no replacement page found") ∨
      placeOrder envPOClosedNoPages envPOClosedNoPages =
        .error (.msg ("Payment form not visible; cannot place order. URL="
          ++ placeOrderUrlText envPOClosedNoPages))) := by
  have h := placeOrder_c3 envPOClosedNoPages envPOClosedNoPages
    (by intro p hp; simp [envPOClosedNoPages] at hp)
  exact ⟨h.1, h.2 (Or.inl rfl)⟩

/-! ## Click loop lemmas -/

theorem tryCandidates_some_click (e : ClickEnv) (iter : Nat) :
    ∀ (cs : List Nat) (c : Nat), (tryCandidates e iter cs).1 = some c →
      c ∈ cs ∧ ClickEv.clickOk iter c ∈ (tryCandidates e iter cs).2 := by
  intro cs
  induction cs with
  | nil => intro c h; simp [tryCandidates] at h
  | cons a rest ih =>
    intro c h
    rcases hcnt : e.cnt iter a with u | n
    · rw [show tryCandidates e iter (a :: rest) = tryCandidates e iter rest by
        simp only [tryCandidates, hcnt]] at h ⊢
      exact ⟨List.mem_cons_of_mem a (ih c h).1, (ih c h).2⟩
    · cases n with
      | zero =>
        rw [show tryCandidates e iter (a :: rest) = tryCandidates e iter rest by
          simp only [tryCandidates, hcnt]] at h ⊢
        exact ⟨List.mem_cons_of_mem a (ih c h).1, (ih c h).2⟩
      | succ m =>
        rcases hclk : e.clk iter a with u | u
        · rw [show tryCandidates e iter (a :: rest)
              = ((tryCandidates e iter rest).1,
                 ClickEv.clickFail iter a :: (tryCandidates e iter rest).2) by
            simp only [tryCandidates, hcnt, hclk]] at h ⊢
          exact ⟨List.mem_cons_of_mem a (ih c h).1,
            List.mem_cons_of_mem _ (ih c h).2⟩
        · rw [show tryCandidates e iter (a :: rest)
              = (some a, [ClickEv.clickOk iter a]) by
            simp only [tryCandidates, hcnt, hclk]] at h ⊢
          obtain rfl : a = c := by simpa using h
          exact ⟨List.mem_cons_self a rest, List.mem_singleton_self _⟩

theorem clickLoop_some_click (e : ClickEnv) (n timeoutMs : Nat) :
    ∀ (fuel now iter c : Nat),
      (clickLoop e n timeoutMs fuel now iter).1 = some c →
      c < n ∧ ∃ it, ClickEv.clickOk it c ∈ (clickLoop e n timeoutMs fuel now iter).2.2 := by
  intro fuel
  induction fuel with
  | zero => intro now iter c h; simp [clickLoop] at h
  | succ fuel ih =>
    intro now iter c h
    by_cases hlt : now < timeoutMs
    · rcases hA : (tryCandidates e iter (List.range n)).1 with _ | c0
      · rw [show clickLoop e n timeoutMs (fuel + 1) now iter
            = ((clickLoop e n timeoutMs fuel (now + 100) (iter + 1)).1,
               (clickLoop e n timeoutMs fuel (now + 100) (iter + 1)).2.1,
               (tryCandidates e iter (List.range n)).2
                 ++ (clickLoop e n timeoutMs fuel (now + 100) (iter + 1)).2.2) by
          simp only [clickLoop, if_pos hlt, hA]] at h ⊢
        obtain ⟨hcn, it, hmem⟩ := ih (now + 100) (iter + 1) c h
        exact ⟨hcn, it, List.mem_append_right _ hmem⟩
      · rw [show clickLoop e n timeoutMs (fuel + 1) now iter
            = (some c0, now, (tryCandidates e iter (List.range n)).2) by
          simp only [clickLoop, if_pos hlt, hA]] at h ⊢
        have hc0 : c0 = c := by simpa using h
        subst hc0
        have := tryCandidates_some_click e iter (List.range n) c0 hA
        exact ⟨List.mem_range.mp this.1, iter, this.2⟩
    · rw [show clickLoop e n timeoutMs (fuel + 1) now iter = (none, now, []) by
        simp only [clickLoop, if_neg hlt]] at h
      simp at h

theorem clickLoop_none_timeout (e : ClickEnv) (n timeoutMs : Nat) :
    ∀ (fuel now iter : Nat), timeoutMs ≤ now + 100 * fuel →
      (clickLoop e n timeoutMs fuel now iter).1 = none →
      timeoutMs ≤ (clickLoop e n timeoutMs fuel now iter).2.1 := by
  intro fuel
  induction fuel with
  | zero =>
    intro now iter hfu _
    show timeoutMs ≤ now
    omega
  | succ fuel ih =>
    intro now iter hfu h
    by_cases hlt : now < timeoutMs
    · rcases hA : (tryCandidates e iter (List.range n)).1 with _ | c0
      · rw [show clickLoop e n timeoutMs (fuel + 1) now iter
            = ((clickLoop e n timeoutMs fuel (now + 100) (iter + 1)).1,
               (clickLoop e n timeoutMs fuel (now + 100) (iter + 1)).2.1,
               (tryCandidates e iter (List.range n)).2
                 ++ (clickLoop e n timeoutMs fuel (now + 100) (iter + 1)).2.2) by
          simp only [clickLoop, if_pos hlt, hA]] at h ⊢
        exact ih (now + 100) (iter + 1) (by omega) h
      · rw [show clickLoop e n timeoutMs (fuel + 1) now iter
            = (some c0, now, (tryCandidates e iter (List.range n)).2) by
          simp only [clickLoop, if_pos hlt, hA]] at h
        simp at h
    · rw [show clickLoop e n timeoutMs (fuel + 1) now iter = (none, now, []) by
        simp only [clickLoop, if_neg hlt]]
      show timeoutMs ≤ now
      omega

/-! ## Wait loop timeout lemma -/

theorem waitLoop_false_timeout (e : CartReadEnv) (expected timeoutMs required : Nat) :
    ∀ (fuel now k hits : Nat), timeoutMs ≤ now + 150 * fuel →
      (waitLoop e expected timeoutMs required fuel now k hits).1 = false →
      timeoutMs ≤ (waitLoop e expected timeoutMs required fuel now k hits).2.1 := by
  intro fuel
  induction fuel with
  | zero =>
    intro now k hits hfu _
    show timeoutMs ≤ now
    omega
  | succ fuel ih =>
    intro now k hits hfu h
    by_cases hlt : now < timeoutMs
    · by_cases hEq : (getStableVisibleItemCount e 3 75 k).1 = expected
      · by_cases hReq : required ≤ hits + 1
        · rw [show waitLoop e expected timeoutMs required (fuel + 1) now k hits
              = (true, now + (getStableVisibleItemCount e 3 75 k).2.2,
                 (getStableVisibleItemCount e 3 75 k).2.1) by
            simp only [waitLoop, if_pos hlt, if_pos hEq, if_pos hReq]] at h
          simp at h
        · rw [show waitLoop e expected timeoutMs required (fuel + 1) now k hits
              = waitLoop e expected timeoutMs required fuel
                  (now + (getStableVisibleItemCount e 3 75 k).2.2 + 150)
                  (getStableVisibleItemCount e 3 75 k).2.1 (hits + 1) by
            simp only [waitLoop, if_pos hlt, if_pos hEq, if_neg hReq]] at h ⊢
          exact ih _ _ _ (by omega) h
      · rw [show waitLoop e expected timeoutMs required (fuel + 1) now k hits
            = waitLoop e expected timeoutMs required fuel
                (now + (getStableVisibleItemCount e 3 75 k).2.2 + 150)
                (getStableVisibleItemCount e 3 75 k).2.1 0 by
          simp only [waitLoop, if_pos hlt, if_neg hEq]] at h ⊢
        exact ih _ _ _ (by omega) h
    · rw [show waitLoop e expected timeoutMs required (fuel + 1) now k hits
          = (false, now, k) by simp only [waitLoop, if_neg hlt]]
      show timeoutMs ≤ now
      omega

/-- C2: `clickFirstAvailable` reports success only after actually
clicking: whenever it returns a candidate (rather than null), that
candidate is one of the supplied locators and the trace of performed
clicks contains a successful click on exactly that candidate, during
some polling iteration. -/
theorem clickFirstAvailable_c2 :
    ∀ (e : ClickEnv) (n timeoutMs c : Nat),
      (clickFirstAvailable e n timeoutMs).1 = some c →
      c < n ∧ ∃ it, ClickEv.clickOk it c ∈ (clickFirstAvailable e n timeoutMs).2.2 := by
  intro e n timeoutMs c h
  exact clickLoop_some_click e n timeoutMs (timeoutMs + 1) 0 0 c h

/-- Witness for C2: two candidates both present, the first one's click
rejects and the second one's click succeeds; the helper returns
candidate 1 and its trace records the successful click. -/
theorem clickFirstAvailable_c2_witness :
    1 < 2 ∧ ∃ it, ClickEv.clickOk it 1 ∈ (clickFirstAvailable envClickSecond 2 3000).2.2 :=
  clickFirstAvailable_c2 envClickSecond 2 3000 1 rfl

/-- C8: the polling primitives never propagate an evaluation error.
Every environment — including ones whose every `count()`/`click()` or
count read rejects — yields a defined result: `clickFirstAvailable`
always returns a candidate or null, and returns null only once the
clock has reached its deadline; `waitForCountToEqual` always returns a
boolean, `false` only once the clock has reached the timeout. -/
theorem polling_swallow_c8 :
    (∀ (e : ClickEnv) (n timeoutMs : Nat),
      (clickFirstAvailable e n timeoutMs).1 = none ∨
        ∃ c, (clickFirstAvailable e n timeoutMs).1 = some c) ∧
    (∀ (e : ClickEnv) (n timeoutMs : Nat),
      (clickFirstAvailable e n timeoutMs).1 = none →
      timeoutMs ≤ (clickFirstAvailable e n timeoutMs).2.1) ∧
    (∀ (e : CartReadEnv) (expected timeoutMs required : Nat),
      (waitForCountToEqual e expected timeoutMs required).1 = false →
      timeoutMs ≤ (waitForCountToEqual e expected timeoutMs required).2.1) := by
  refine ⟨?_, ?_, ?_⟩
  · intro e n timeoutMs
    rcases h : (clickFirstAvailable e n timeoutMs).1 with _ | c
    · exact Or.inl rfl
    · exact Or.inr ⟨c, rfl⟩
  · intro e n timeoutMs h
    exact clickLoop_none_timeout e n timeoutMs (timeoutMs + 1) 0 0 (by omega) h
  · intro e expected timeoutMs required h
    exact waitLoop_false_timeout e expected timeoutMs required (timeoutMs + 1) 0 0 0 (by omega) h

/-- Witness for C8: candidates whose counts always reject make
`clickFirstAvailable` run to its deadline and return null, and a cart
stuck at 2 items makes `waitForCountToEqual 3` run to its timeout and
return false; both primitives return normally. -/
theorem polling_swallow_c8_witness :
    ((clickFirstAvailable envClickNever 2 300).1 = none ∨
      ∃ c, (clickFirstAvailable envClickNever 2 300).1 = some c) ∧
    300 ≤ (clickFirstAvailable envClickNever 2 300).2.1 ∧
    200 ≤ (waitForCountToEqual envConstTwo 3 200 3).2.1 := by
  refine ⟨polling_swallow_c8.1 envClickNever 2 300, ?_, ?_⟩
  · exact polling_swallow_c8.2.1 envClickNever 2 300 rfl
  · exact polling_swallow_c8.2.2 envConstTwo 3 200 3 rfl

/-! ## Stable sampler lemmas -/

theorem stableLoop_zero (e : CartReadEnv) (delayMs k : Nat) (last : Int) (stable slept : Nat) :
    stableLoop e delayMs 0 k last stable slept
      = (if last < 0 then 0 else last.toNat, k, slept) := rfl

theorem stableLoop_succ_ret (e : CartReadEnv) (delayMs s k : Nat) (last : Int)
    (stable slept : Nat) (h : (getVisibleItemCount e k : Int) = last) (h2 : 2 ≤ stable + 1) :
    stableLoop e delayMs (s + 1) k last stable slept
      = (getVisibleItemCount e k, k + 1, slept) := by
  simp only [stableLoop, if_pos h, if_pos h2]

theorem stableLoop_succ_again (e : CartReadEnv) (delayMs s k : Nat) (last : Int)
    (stable slept : Nat) (h : (getVisibleItemCount e k : Int) = last) (h2 : ¬ 2 ≤ stable + 1) :
    stableLoop e delayMs (s + 1) k last stable slept
      = stableLoop e delayMs s (k + 1) last (stable + 1) (slept + delayMs) := by
  simp only [stableLoop, if_pos h, if_neg h2]

theorem stableLoop_succ_ne (e : CartReadEnv) (delayMs s k : Nat) (last : Int)
    (stable slept : Nat) (h : ¬ (getVisibleItemCount e k : Int) = last) :
    stableLoop e delayMs (s + 1) k last stable slept
      = stableLoop e delayMs s (k + 1) (getVisibleItemCount e k : Int) 1 (slept + delayMs) := by
  simp only [stableLoop, if_neg h]
  rw [if_neg (by omega : ¬ (2 : Nat) ≤ 1)]

theorem stableLoop_early (e : CartReadEnv) (delayMs k0 : Nat) :
    ∀ (s k : Nat) (last : Int) (stable slept : Nat),
      k0 ≤ k →
      (1 ≤ stable → ∃ kp, k0 ≤ kp ∧ k = kp + 1 ∧ last = (getVisibleItemCount e kp : Int)) →
      (stableLoop e delayMs s k last stable slept).2.1 < k + s →
      ∃ j, k0 ≤ j ∧ (stableLoop e delayMs s k last stable slept).2.1 = j + 2 ∧
        getVisibleItemCount e j = (stableLoop e delayMs s k last stable slept).1 ∧
        getVisibleItemCount e (j + 1) = (stableLoop e delayMs s k last stable slept).1 := by
  intro s
  induction s with
  | zero =>
    intro k last stable slept _ _ hlt
    rw [stableLoop_zero] at hlt
    simp at hlt
  | succ s ih =>
    intro k last stable slept hk0 hinv hlt
    by_cases hcl : (getVisibleItemCount e k : Int) = last
    · by_cases hst : 2 ≤ stable + 1
      · rw [stableLoop_succ_ret e delayMs s k last stable slept hcl hst] at hlt ⊢
        obtain ⟨kp, hkp0, hkp, hlast⟩ := hinv (by omega)
        have hval : getVisibleItemCount e kp = getVisibleItemCount e k := by
          have : ((getVisibleItemCount e kp : Int)) = (getVisibleItemCount e k : Int) := by
            rw [← hlast, hcl]
          exact_mod_cast this
        refine ⟨kp, hkp0, ?_, ?_, ?_⟩
        · show k + 1 = kp + 2
          omega
        · show getVisibleItemCount e kp = getVisibleItemCount e k
          exact hval
        · show getVisibleItemCount e (kp + 1) = getVisibleItemCount e k
          rw [show kp + 1 = k from by omega]
      · rw [stableLoop_succ_again e delayMs s k last stable slept hcl hst] at hlt ⊢
        refine ih (k + 1) last (stable + 1) (slept + delayMs) (by omega) ?_ (by omega)
        intro _
        exact ⟨k, hk0, rfl, hcl.symm⟩
    · rw [stableLoop_succ_ne e delayMs s k last stable slept hcl] at hlt ⊢
      refine ih (k + 1) (getVisibleItemCount e k : Int) 1 (slept + delayMs) (by omega) ?_ (by omega)
      intro _
      exact ⟨k, hk0, rfl, rfl⟩

theorem stableLoop_distinct (e : CartReadEnv) (delayMs k0 samples : Nat)
    (hne : ∀ i, k0 ≤ i → i + 1 < k0 + samples →
      getVisibleItemCount e i ≠ getVisibleItemCount e (i + 1)) :
    ∀ (s kp slept : Nat), k0 ≤ kp → kp + 1 + s = k0 + samples →
      stableLoop e delayMs s (kp + 1) (getVisibleItemCount e kp : Int) 1 slept
        = (getVisibleItemCount e (k0 + samples - 1), k0 + samples, slept + s * delayMs) := by
  intro s
  induction s with
  | zero =>
    intro kp slept hk0 hend
    rw [stableLoop_zero, if_neg (by omega : ¬ ((getVisibleItemCount e kp : Nat) : Int) < 0)]
    rw [show ((getVisibleItemCount e kp : Nat) : Int).toNat = getVisibleItemCount e kp from by omega]
    rw [show kp + 1 = k0 + samples from by omega, show k0 + samples - 1 = kp from by omega,
      show slept + 0 * delayMs = slept from by simp]
  | succ s ih =>
    intro kp slept hk0 hend
    have hcl : ¬ (getVisibleItemCount e (kp + 1) : Int) = (getVisibleItemCount e kp : Int) := by
      intro hEq
      exact hne kp hk0 (by omega) (by exact_mod_cast hEq.symm)
    rw [stableLoop_succ_ne e delayMs s (kp + 1) _ 1 slept hcl]
    rw [ih (kp + 1) (slept + delayMs) (by omega) (by omega)]
    rw [show slept + delayMs + s * delayMs = slept + (s + 1) * delayMs from by ring]

/-- C4: on a live page, `getStableVisibleItemCount` accepts a value
before exhausting its sample budget only when the last two consecutive
reads both returned exactly that value; and when no two consecutive
reads of the budget agree at all, it consumes the whole budget and
returns the last value read. -/
theorem getStable_c4 :
    ∀ (e : CartReadEnv) (samples delayMs k0 : Nat), e.closed = false → 1 ≤ samples →
      ((getStableVisibleItemCount e samples delayMs k0).2.1 < k0 + samples →
        ∃ j, k0 ≤ j ∧ (getStableVisibleItemCount e samples delayMs k0).2.1 = j + 2 ∧
          getVisibleItemCount e j = (getStableVisibleItemCount e samples delayMs k0).1 ∧
          getVisibleItemCount e (j + 1) = (getStableVisibleItemCount e samples delayMs k0).1) ∧
      ((∀ i, k0 ≤ i → i + 1 < k0 + samples →
          getVisibleItemCount e i ≠ getVisibleItemCount e (i + 1)) →
        (getStableVisibleItemCount e samples delayMs k0).1
            = getVisibleItemCount e (k0 + samples - 1) ∧
          (getStableVisibleItemCount e samples delayMs k0).2.1 = k0 + samples) := by
  intro e samples delayMs k0 hcl h1
  have hw : getStableVisibleItemCount e samples delayMs k0
      = stableLoop e delayMs samples k0 (-1) 0 0 := by
    unfold getStableVisibleItemCount
    rw [hcl]
    simp
  constructor
  · rw [hw]
    intro hlt
    exact stableLoop_early e delayMs k0 samples k0 (-1) 0 0 (by omega) (by omega) hlt
  · intro hne
    rw [hw]
    obtain ⟨s, rfl⟩ : ∃ s, samples = s + 1 := ⟨samples - 1, by omega⟩
    have hfirst : ¬ (getVisibleItemCount e k0 : Int) = (-1 : Int) := by omega
    rw [stableLoop_succ_ne e delayMs s k0 (-1) 0 0 hfirst]
    rw [stableLoop_distinct e delayMs k0 (s + 1) hne s k0 (0 + delayMs) (by omega) (by omega)]
    exact ⟨rfl, rfl⟩

/-- Witness for C4: with constant reads of 5, the sampler accepts early
after two agreeing reads; with strictly increasing reads it exhausts
the three-sample budget and returns the last read. -/
theorem getStable_c4_witness :
    (∃ j, 0 ≤ j ∧ (getStableVisibleItemCount envConstFive 3 75 0).2.1 = j + 2 ∧
      getVisibleItemCount envConstFive j = (getStableVisibleItemCount envConstFive 3 75 0).1 ∧
      getVisibleItemCount envConstFive (j + 1) = (getStableVisibleItemCount envConstFive 3 75 0).1) ∧
    (getStableVisibleItemCount envDistinctReads 3 75 0).1 = getVisibleItemCount envDistinctReads 2 ∧
    (getStableVisibleItemCount envDistinctReads 3 75 0).2.1 = 3 := by
  refine ⟨?_, ?_⟩
  · exact (getStable_c4 envConstFive 3 75 0 rfl (by omega)).1 (by decide)
  · have h := (getStable_c4 envDistinctReads 3 75 0 rfl (by omega)).2
      (by
        intro i hi hlt
        simp [getVisibleItemCount, envDistinctReads])
    simpa using h

/-! ## Constant-count wait lemmas -/

theorem getStable_const (e : CartReadEnv) (N : Nat) (hcl : e.closed = false)
    (hN : ∀ k, getVisibleItemCount e k = N) :
    ∀ k, getStableVisibleItemCount e 3 75 k = (N, k + 2, 75) := by
  intro k
  unfold getStableVisibleItemCount
  rw [hcl]
  simp only [Bool.false_eq_true, if_false]
  rw [stableLoop_succ_ne e 75 2 k (-1) 0 0 (by rw [hN k]; omega)]
  rw [stableLoop_succ_ret e 75 1 (k + 1) _ 1 (0 + 75)
    (by rw [hN (k + 1), hN k]) (by omega)]
  rw [hN (k + 1)]

theorem waitLoop_const_step (e : CartReadEnv) (N timeoutMs required f now k hits : Nat)
    (hst : getStableVisibleItemCount e 3 75 k = (N, k + 2, 75)) (hlt : now < timeoutMs) :
    waitLoop e N timeoutMs required (f + 1) now k hits
      = if required ≤ hits + 1 then (true, now + 75, k + 2)
        else waitLoop e N timeoutMs required f (now + 75 + 150) (k + 2) (hits + 1) := by
  simp only [waitLoop, if_pos hlt, hst]
  simp

theorem waitLoop_const (e : CartReadEnv) (N timeoutMs required : Nat)
    (hst : ∀ k, getStableVisibleItemCount e 3 75 k = (N, k + 2, 75)) :
    ∀ (d fuel now k hits : Nat), hits + 1 + d = required → d < fuel →
      now + 225 * d < timeoutMs →
      waitLoop e N timeoutMs required fuel now k hits
        = (true, now + 225 * d + 75, k + 2 * (d + 1)) := by
  intro d
  induction d with
  | zero =>
    intro fuel now k hits hreq hfu hlt
    obtain ⟨f, rfl⟩ : ∃ f, fuel = f + 1 := ⟨fuel - 1, by omega⟩
    rw [waitLoop_const_step e N timeoutMs required f now k hits (hst k) (by omega)]
    rw [if_pos (by omega : required ≤ hits + 1)]
  | succ d ih =>
    intro fuel now k hits hreq hfu hlt
    obtain ⟨f, rfl⟩ : ∃ f, fuel = f + 1 := ⟨fuel - 1, by omega⟩
    rw [waitLoop_const_step e N timeoutMs required f now k hits (hst k) (by omega)]
    rw [if_neg (by omega : ¬ required ≤ hits + 1)]
    rw [ih f (now + 75 + 150) (k + 2) (hits + 1) (by omega) (by omega) (by omega)]
    rw [show now + 75 + 150 + 225 * d + 75 = now + 225 * (d + 1) + 75 from by omega,
      show k + 2 + 2 * (d + 1) = k + 2 * (d + 1 + 1) from by omega]

/-- C1: on a live, stabilized cart page where every sampled read of the
visible item count equals `N`, `waitForCountToEqual N timeoutMs
requiredStableHits` returns `true` — with the clock at return strictly
below the timeout — for every positive `requiredStableHits` and every
timeout of at least 225ms per required stable hit (each polling
iteration costs one 75ms stable sample plus the 150ms poll sleep). -/
theorem waitForCount_c1 :
    ∀ (e : CartReadEnv) (N timeoutMs required : Nat),
      e.closed = false → (∀ k, getVisibleItemCount e k = N) →
      1 ≤ required → 225 * required ≤ timeoutMs →
      (waitForCountToEqual e N timeoutMs required).1 = true ∧
      (waitForCountToEqual e N timeoutMs required).2.1 < timeoutMs := by
  intro e N timeoutMs required hcl hN h1 hT
  have hst := getStable_const e N hcl hN
  have hrun := waitLoop_const e N timeoutMs required hst (required - 1) (timeoutMs + 1) 0 0 0
    (by omega) (by omega) (by omega)
  unfold waitForCountToEqual
  rw [hrun]
  refine ⟨rfl, ?_⟩
  show 0 + 225 * (required - 1) + 75 < timeoutMs
  omega

/-- Witness for C1 on the concrete always-5 cart with
`requiredStableHits = 3` and a 1000ms timeout. -/
theorem waitForCount_c1_witness :
    (waitForCountToEqual envConstFive 5 1000 3).1 = true ∧
    (waitForCountToEqual envConstFive 5 1000 3).2.1 < 1000 :=
  waitForCount_c1 envConstFive 5 1000 3 rfl (fun _ => rfl) (by omega) (by omega)

/-! ## String containment lemmas -/

theorem strData_append (a b : String) : (a ++ b).data = a.data ++ b.data := rfl

theorem strContains_extend_left (a b sub : String) (h : strContains b sub) :
    strContains (a ++ b) sub := by
  unfold strContains at h ⊢
  rw [strData_append]
  exact List.IsInfix.trans h (List.IsSuffix.isInfix (List.suffix_append a.data b.data))

theorem strContains_extend_right (a b sub : String) (h : strContains a sub) :
    strContains (a ++ b) sub := by
  unfold strContains at h ⊢
  rw [strData_append]
  exact List.IsInfix.trans h (List.IsPrefix.isInfix (List.prefix_append a.data b.data))

theorem strContains_self (s : String) : strContains s s := List.infix_rfl

theorem strContains_joinComma (names : List String) (n : String) (h : n ∈ names) :
    strContains (joinComma names) n := by
  induction names with
  | nil => cases h
  | cons x rest ih =>
    cases rest with
    | nil =>
      obtain rfl : n = x := by simpa using h
      exact strContains_self n
    | cons y t =>
      rcases List.mem_cons.mp h with rfl | hmem
      · show strContains (n ++ ", " ++ joinComma (y :: t)) n
        exact strContains_extend_right _ _ _ (strContains_extend_right _ _ _ (strContains_self n))
      · show strContains (x ++ ", " ++ joinComma (y :: t)) n
        exact strContains_extend_left _ _ _ (ih hmem)

theorem exactMsg_contains (expected cur : Nat) (names : List String) :
    strContains ("Timed out waiting for cart to have " ++ toString expected
        ++ " items. Got " ++ toString cur ++ ". Items: " ++ joinComma names)
      (toString expected) ∧
    strContains ("Timed out waiting for cart to have " ++ toString expected
        ++ " items. Got " ++ toString cur ++ ". Items: " ++ joinComma names)
      (toString cur) ∧
    ∀ n ∈ names,
      strContains ("Timed out waiting for cart to have " ++ toString expected
          ++ " items. Got " ++ toString cur ++ ". Items: " ++ joinComma names) n := by
  refine ⟨?_, ?_, ?_⟩
  · exact strContains_extend_right _ _ _ (strContains_extend_right _ _ _
      (strContains_extend_right _ _ _ (strContains_extend_right _ _ _
        (strContains_extend_left _ _ _ (strContains_self _)))))
  · exact strContains_extend_right _ _ _ (strContains_extend_right _ _ _
      (strContains_extend_left _ _ _ (strContains_self _)))
  · intro n hn
    exact strContains_extend_left _ _ _ (strContains_joinComma names n hn)

theorem waitExact_error_contains (e : CartPageEnv) (expected timeoutMs : Nat) (m : String)
    (h : waitForCartItemsExactCount e expected timeoutMs = .error m) :
    strContains m (toString expected) ∧
    strContains m (toString (lastObservedCount e expected timeoutMs)) ∧
    ∀ n ∈ e.names, strContains m n := by
  unfold waitForCartItemsExactCount at h
  by_cases hw : (waitForCountToEqual e.read expected timeoutMs 3).1 = true
  · rw [if_pos hw] at h
    cases h
  · rw [if_neg hw] at h
    have hm : m = "Timed out waiting for cart to have " ++ toString expected
        ++ " items. Got "
        ++ toString (getStableVisibleItemCount e.read 3 75
            (waitForCountToEqual e.read expected timeoutMs 3).2.2).1
        ++ ". Items: " ++ joinComma e.names := by
      cases h
      rfl
    rw [hm]
    exact exactMsg_contains expected _ e.names

/-- C6 counterexample: at `expected = 0` on a cart stuck at 2 visible
items named "Blue Top", `assertCartItemsExactCount` delegates to
`assertCartEmpty` and raises an error whose message contains neither
the expected count "0" nor the visible item name, refuting the claim
that its terminal error always includes the expected count and the item
list. -/
theorem errorMessages_c6_counterexample :
    assertCartItemsExactCount envCartStuckAtTwo 0
      = .error "Expected empty cart but found 2 item(s)." ∧
    envCartStuckAtTwo.names = ["Blue Top"] ∧
    ¬ strContains "Expected empty cart but found 2 item(s)." "0" ∧
    ¬ strContains "Expected empty cart but found 2 item(s)." "Blue Top" := by
  exact ⟨rfl, rfl, by decide, by decide⟩

/-- C6 (amended): terminal timeout errors are descriptive:
`waitForCartItemsExactCount`, and `assertCartItemsExactCount` for every
positive expected count, raise an error containing the expected count,
the last observed count, and every visible item name; at expected count
0 `assertCartItemsExactCount` delegates to `assertCartEmpty`, whose
error contains the observed count only; and `placeOrder`'s terminal
error when the payment form is not visible on the still-open page (and
no distinct replacement tab exists) contains the current page URL. -/
theorem errorMessages_c6 :
    (∀ (e : CartPageEnv) (expected timeoutMs : Nat) (m : String),
      waitForCartItemsExactCount e expected timeoutMs = .error m →
      strContains m (toString expected) ∧
      strContains m (toString (lastObservedCount e expected timeoutMs)) ∧
      ∀ n ∈ e.names, strContains m n) ∧
    (∀ (e : CartPageEnv) (expected : Nat) (m : String), 1 ≤ expected →
      assertCartItemsExactCount e expected = .error m →
      strContains m (toString expected) ∧
      strContains m (toString (lastObservedCount e expected 15000)) ∧
      ∀ n ∈ e.names, strContains m n) ∧
    (∀ (e : CartPageEnv) (m : String),
      assertCartItemsExactCount e 0 = .error m →
      ∃ r : Nat, m = "Expected empty cart but found " ++ toString r ++ " item(s)." ∧
        strContains m (toString r)) ∧
    (∀ e eRec : PlaceOrderEnv,
      e.selfClosed0 = false → e.selfClosed1 = false → e.formVisible = false →
      e.selfClosed2 = false →
      (findPaymentOrCheckoutPage e.ctxPages = none ∨
        ∃ alt, findPaymentOrCheckoutPage e.ctxPages = some alt ∧ alt.id = e.selfId) →
      ∃ m, placeOrder e eRec = .error (.msg m) ∧ strContains m e.url) := by
  refine ⟨?_, ?_, ?_, ?_⟩
  · intro e expected timeoutMs m h
    exact waitExact_error_contains e expected timeoutMs m h
  · intro e expected m h1 h
    unfold assertCartItemsExactCount at h
    rw [if_neg (by omega : ¬ expected = 0)] at h
    exact waitExact_error_contains e expected 15000 m h
  · intro e m h
    unfold assertCartItemsExactCount at h
    rw [if_pos rfl] at h
    unfold assertCartEmpty at h
    rcases hl : assertEmptyLoop e 15001 0 0 0 with _ | t
    · rw [hl] at h
      cases h
    · rw [hl] at h
      refine ⟨(getStableVisibleItemCount e.read 3 75 t.2).1, ?_, ?_⟩
      · cases h
        rfl
      · have hm : m = "Expected empty cart but found "
            ++ toString (getStableVisibleItemCount e.read 3 75 t.2).1 ++ " item(s)." := by
          cases h
          rfl
        rw [hm]
        exact strContains_extend_right _ _ _
          (strContains_extend_left _ _ _ (strContains_self _))
  · intro e eRec h0 h1 hF h2 hfind
    unfold placeOrder
    rw [h0, h1, hF]
    simp only [Bool.false_eq_true, if_false]
    have hurl : placeOrderUrlText e = e.url := by
      unfold placeOrderUrlText
      rw [h2]
      simp
    rcases hfind with hnone | ⟨alt, hsome, hid⟩
    · rw [hnone]
      refine ⟨"Payment form not visible; cannot place order. URL=" ++ placeOrderUrlText e,
        rfl, ?_⟩
      rw [hurl]
      exact strContains_extend_left _ _ _ (strContains_self _)
    · rw [hsome]
      refine ⟨"Payment form not visible; cannot place order. URL=" ++ placeOrderUrlText e,
        ?_, ?_⟩
      · show (if alt.id ≠ e.selfId then placeOrderRecovered eRec
            else Except.error (POErr.msg ("Payment form not visible; cannot place order. URL="
              ++ placeOrderUrlText e)))
            = Except.error (POErr.msg ("Payment form not visible; cannot place order. URL="
              ++ placeOrderUrlText e))
        rw [if_neg (by simp [hid])]
      · rw [hurl]
        exact strContains_extend_left _ _ _ (strContains_self _)

/-- Witness for the amended C6: the cart stuck at 2 items times out
waiting for 1 item (both helpers), its zero-expectation assertion
raises the assertCartEmpty error, and the formless placeOrder
activation raises the URL-bearing error. -/
theorem errorMessages_c6_witness :
    (strContains "Timed out waiting for cart to have 1 items. Got 2. Items: Blue Top"
        (toString 1) ∧
      strContains "Timed out waiting for cart to have 1 items. Got 2. Items: Blue Top"
        (toString (lastObservedCount envCartStuckAtTwo 1 1)) ∧
      ∀ n ∈ envCartStuckAtTwo.names,
        strContains "Timed out waiting for cart to have 1 items. Got 2. Items: Blue Top" n) ∧
    (∃ r : Nat, "Expected empty cart but found 2 item(s)."
        = "Expected empty cart but found " ++ toString r ++ " item(s)." ∧
      strContains "Expected empty cart but found 2 item(s)." (toString r)) ∧
    (∃ m, placeOrder envPOFormless envPOFormless = .error (.msg m) ∧
      strContains m envPOFormless.url) := by
  refine ⟨?_, ?_, ?_⟩
  · exact errorMessages_c6.1 envCartStuckAtTwo 1 1
      "Timed out waiting for cart to have 1 items. Got 2. Items: Blue Top" rfl
  · exact errorMessages_c6.2.2.1 envCartStuckAtTwo _ rfl
  · exact errorMessages_c6.2.2.2 envPOFormless envPOFormless rfl rfl rfl rfl (Or.inl rfl)

